import Mathlib

/-!
Shallow embedding of the NL-to-SQL pipeline of this repository:
the Database Gateway (`src/database/connection.py`), the SQL Generator
(`src/nlp/query_generator.py`) and the Result Shaper / Summarizer context
builder (`src/nlp/result_humanizer.py`).

Python strings are modelled as `List Char` (`PyStr`), so slicing,
`strip`, `startswith`/`endswith` and `replace` are list operations.
External collaborators (the pymssql driver, the LLM HTTP endpoint,
`json.dumps`, the random row sampler) are modelled as explicit oracle
parameters.
-/

/-- Python strings, modelled as lists of characters. -/
abbrev PyStr := List Char

/-- Characters that Python's `str.strip()` removes. -/
def isPySpace (c : Char) : Bool :=
  c = ' ' || c = '\t' || c = '\n' || c = '\x0d' || c = '\x0b' || c = '\x0c'

/-- Convert a Lean string literal to the `PyStr` model. -/
def pyOf (s : String) : PyStr := s.data

/-- Python `str.strip()`: drop whitespace from both ends. -/
def pyStrip (s : PyStr) : PyStr :=
  ((s.dropWhile isPySpace).reverse.dropWhile isPySpace).reverse

/-- Python `", ".join(...)` style interleaving. -/
def pyIntercalate (sep : PyStr) : List PyStr → PyStr
  | [] => []
  | [x] => x
  | x :: y :: xs => x ++ sep ++ pyIntercalate sep (y :: xs)

/-!
## SQL Generator (`src/nlp/query_generator.py`, `generate_sql_query`)

The LLM HTTP exchange is an oracle: either the request raises (caught by
the outer `except`), the parsed body lacks a usable `choices` entry, or it
yields the first completion's message content.
-/

/-- Outcome of the Azure OpenAI HTTP call made by `generate_sql_query`. -/
inductive LlmResponse
  | httpFail (msg : String)
  | noChoices
  | content (raw : PyStr)

/-- Post-processing of the raw completion, from `generate_sql_query`
lines 186-194: `.strip()`, drop a leading 7-character chunk when the text
starts with a ```sql fence, drop a trailing ``` fence, `.strip()` again. -/
def cleanupSql (raw : PyStr) : PyStr :=
  let g := pyStrip raw
  let g := if (pyOf "```sql").isPrefixOf g then g.drop 7 else g
  let g := if (pyOf "```").isSuffixOf g then g.take (g.length - 3) else g
  pyStrip g

/-- `SQLQueryGenerator.generate_sql_query`: credential guard, question
guard (Python truthiness: only the empty string is falsy), then the LLM
call and fence cleanup. Returns the `(success, result)` pair. -/
def generate_sql_query (apiKey apiEndpoint : String) (llm : LlmResponse)
    (q : PyStr) : Bool × PyStr :=
  if apiKey = "" ∨ apiEndpoint = "" then
    (false, pyOf "Azure OpenAI API credentials are missing.")
  else if q = [] then
    (false, pyOf "Please provide a natural language query.")
  else
    match llm with
    | .httpFail m => (false, pyOf ("Error generating SQL query: " ++ m))
    | .noChoices =>
        (false, pyOf "Received unexpected response format from Azure OpenAI API.")
    | .content raw => (true, cleanupSql raw)

example : cleanupSql (pyOf "```sql\nSELECT 1\n```") = pyOf "SELECT 1" := by decide

/-- C7: stripping a code-fenced completion ```sql\nSELECT 1\n``` yields
exactly `SELECT 1`; the generator returns it with success. -/
theorem c7_code_fence_strip :
    generate_sql_query "key" "endpoint" (.content (pyOf "```sql\nSELECT 1\n```"))
      (pyOf "show one") = (true, pyOf "SELECT 1") := by
  decide

/-- C5 counterexample: a whitespace-only question (a single space) is NOT
rejected by the `if not natural_language_query` guard; with credentials
present the call proceeds to the LLM and succeeds, rather than failing
with the EmptyQuestion message. -/
theorem c5_whitespace_not_rejected :
    generate_sql_query "key" "endpoint" (.content (pyOf "SELECT 1"))
      (pyOf " ")
      = (true, pyOf "SELECT 1") ∧
    (generate_sql_query "key" "endpoint" (.content (pyOf "SELECT 1"))
      (pyOf " ")).1 ≠ false := by
  constructor
  · decide
  · decide

/-- C5 (amended): only the EMPTY question string is rejected with the
empty-question message, before any LLM call (the result is the same for
every LLM oracle); a whitespace-only question is not caught by the guard. -/
theorem c5_empty_question_guard (apiKey apiEndpoint : String) (llm : LlmResponse)
    (hk : apiKey ≠ "") (he : apiEndpoint ≠ "") :
    generate_sql_query apiKey apiEndpoint llm []
      = (false, pyOf "Please provide a natural language query.") := by
  unfold generate_sql_query
  rw [if_neg, if_pos rfl]
  rintro (h | h)
  · exact hk h
  · exact he h

/-- Witness for `c5_empty_question_guard` at concrete credentials and a
concrete oracle. -/
theorem c5_empty_question_guard_witness :
    generate_sql_query "key" "endpoint" (.content (pyOf "SELECT 1")) []
      = (false, pyOf "Please provide a natural language query.") :=
  c5_empty_question_guard "key" "endpoint" (.content (pyOf "SELECT 1"))
    (by decide) (by decide)

/-!
## Database Gateway (`src/database/connection.py`, `execute_query`)

Cell values as pymssql/pandas hand them over.
-/

/-- A cell of a result row: NULL, or a primitive, or a non-primitive
object (carried by its `str(...)` representation). -/
inductive CellValue
  | null
  | str (s : String)
  | int (n : Int)
  | rat (q : ℚ)
  | bool (b : Bool)
  | other (objRepr : String)
deriving DecidableEq

/-- What executing a given SQL text against the live database does:
raise (syntax error, permission, timeout, connection loss mid-call), or
return rows (`cursor.description` non-null), or report affected rows. -/
inductive DbResponse
  | raised (msg : String)
  | rows (cols : List String) (rs : List (List CellValue))
  | affected (n : Int)

/-- Environment of one `execute_query` call: result of the
`is_connected()` check, result of the `connect()` retry, and the driver's
behaviour on each SQL text. -/
structure DbEnv where
  connectedCheck : Bool
  connectOk : Bool
  exec : PyStr → DbResponse

/-- Payload of the `(success, payload)` pair: a DataFrame-like table or a
message string. -/
inductive QueryPayload
  | table (cols : List String) (rs : List (List CellValue))
  | message (s : PyStr)
deriving DecidableEq

/-- Python `query.replace('?', '%s')` (single-character pattern, so the
replacement is per character and oblivious to SQL string literals). -/
def pyReplaceQ : PyStr → PyStr
  | [] => []
  | c :: rest => (if c = '?' then ['%', 's'] else [c]) ++ pyReplaceQ rest

/-- The SQL text actually handed to `cursor.execute`: with a non-empty
(`truthy`) params tuple every `?` is first replaced by `%s`; with no
params the text is executed verbatim (lines 144-149). -/
def executedSql (query : PyStr) (params : List PyStr) : PyStr :=
  if params.isEmpty then query else pyReplaceQ query

/-- `DatabaseConnection.execute_query`: connection check with one
reconnect attempt, parameter placeholder rewrite, then the driver call;
every exception is caught and returned as `(False, message)`. -/
def execute_query (env : DbEnv) (query : PyStr) (params : List PyStr) :
    Bool × QueryPayload :=
  if env.connectedCheck = false ∧ env.connectOk = false then
    (false, .message (pyOf "Database connection failed"))
  else
    match env.exec (executedSql query params) with
    | .raised m => (false, .message (pyOf m))
    | .rows cols rs => (true, .table cols rs)
    | .affected n =>
        (true, .message (pyOf ("Query executed successfully. Rows affected: "
          ++ toString n)))

/-- C1: `execute_query` is a total function into `(success, payload)`
pairs (so no exception crosses its boundary), a failed connection and a
raising driver call each yield a failure result whose payload is the
error message string, a row-returning statement yields the table with its
ordered column names and rows, a non-row statement yields the
affected-row report, and every failure result carries a message payload. -/
theorem c1_execute_query_boundary (env : DbEnv) (q : PyStr) (ps : List PyStr) :
    (env.connectedCheck = false ∧ env.connectOk = false →
       execute_query env q ps = (false, .message (pyOf "Database connection failed"))) ∧
    (∀ m, (env.connectedCheck = true ∨ env.connectOk = true) →
       env.exec (executedSql q ps) = .raised m →
       execute_query env q ps = (false, .message (pyOf m))) ∧
    (∀ cols rs, (env.connectedCheck = true ∨ env.connectOk = true) →
       env.exec (executedSql q ps) = .rows cols rs →
       execute_query env q ps = (true, .table cols rs)) ∧
    (∀ n, (env.connectedCheck = true ∨ env.connectOk = true) →
       env.exec (executedSql q ps) = .affected n →
       execute_query env q ps =
         (true, .message (pyOf ("Query executed successfully. Rows affected: "
           ++ toString n)))) ∧
    ((execute_query env q ps).1 = false →
       ∃ m, (execute_query env q ps).2 = .message m) := by
  refine ⟨?_, ?_, ?_, ?_, ?_⟩
  · intro h
    simp [execute_query, h.1, h.2]
  · intro m hc hm
    have hne : ¬ (env.connectedCheck = false ∧ env.connectOk = false) := by
      rintro ⟨h1, h2⟩
      rcases hc with h | h
      · rw [h1] at h; exact Bool.false_ne_true h
      · rw [h2] at h; exact Bool.false_ne_true h
    simp [execute_query, hne, hm]
  · intro cols rs hc hm
    have hne : ¬ (env.connectedCheck = false ∧ env.connectOk = false) := by
      rintro ⟨h1, h2⟩
      rcases hc with h | h
      · rw [h1] at h; exact Bool.false_ne_true h
      · rw [h2] at h; exact Bool.false_ne_true h
    simp [execute_query, hne, hm]
  · intro n hc hm
    have hne : ¬ (env.connectedCheck = false ∧ env.connectOk = false) := by
      rintro ⟨h1, h2⟩
      rcases hc with h | h
      · rw [h1] at h; exact Bool.false_ne_true h
      · rw [h2] at h; exact Bool.false_ne_true h
    simp [execute_query, hne, hm]
  · intro hfail
    unfold execute_query at hfail ⊢
    by_cases hb : env.connectedCheck = false ∧ env.connectOk = false
    · rw [if_pos hb]
      exact ⟨_, rfl⟩
    · rw [if_neg hb] at hfail ⊢
      cases hm : env.exec (executedSql q ps) with
      | raised m =>
        exact ⟨_, rfl⟩
      | rows cols rs =>
        rw [hm] at hfail
        simp at hfail
      | affected n =>
        rw [hm] at hfail
        simp at hfail

/-- Witness for `c1_execute_query_boundary`: a concrete environment where
both the connection check and the reconnect fail yields the tagged
connection-failure result. -/
theorem c1_execute_query_boundary_witness :
    execute_query ⟨false, false, fun _ => .affected 0⟩ (pyOf "SELECT 1") []
      = (false, .message (pyOf "Database connection failed")) :=
  (c1_execute_query_boundary ⟨false, false, fun _ => .affected 0⟩
    (pyOf "SELECT 1") []).1 ⟨rfl, rfl⟩

/-!
## Result Shaper (`src/nlp/result_humanizer.py`, `_prepare_result_for_gpt`)

A DataFrame is modelled as ordered column names, a parallel list of
pandas-inferred column dtypes, and ordered rows. Per-column statistics,
the 100-row full-context threshold, and the first-10 / random-5 /
last-5 sampling follow lines 37-158 of the source. The random sampler
`df.sample(n)` is an oracle `pick` giving the chosen row indices.
-/

/-- pandas column dtype as tested by `is_numeric_dtype`,
`is_datetime64_dtype`, `is_string_dtype`; any other dtype gets no
statistics entry (the `if/elif` chain has no final else). -/
inductive ColKind
  | numeric
  | datetime
  | text
  | objectOther
deriving DecidableEq

/-- A serializable cell value as placed in the prepared payload: `None`
stand-ins for missing values, primitives kept, non-primitives coerced to
their string representation. -/
inductive SerialValue
  | null
  | s (v : String)
  | i (v : Int)
  | f (v : ℚ)
  | b (v : Bool)
deriving DecidableEq

/-- The NaN→None replacement plus the str-coercion loop applied to every
record value (lines 107-112 and 138-143). -/
def serializeCell : CellValue → SerialValue
  | .null => .null
  | .str v => .s v
  | .int n => .i n
  | .rat q => .f q
  | .bool b => .b b
  | .other objRepr => .s objRepr

/-- One entry of a `to_dict(orient="records")` row: column name → value. -/
abbrev Record := List (String × SerialValue)

/-- `to_dict(orient="records")` on one row. -/
def toRecord (cols : List String) (row : List CellValue) : Record :=
  (cols.zip row).map (fun p => (p.1, serializeCell p.2))

/-- Numeric view of a cell; pandas numeric columns hold numbers, NaN, or
booleans. -/
def cellToRat : CellValue → Option ℚ
  | .null => none
  | .int n => some n
  | .rat q => some q
  | .bool b => some (if b then 1 else 0)
  | .str _ => none
  | .other _ => none

/-- pandas `Series.min()` over the non-null values (None when all-null). -/
def listMin : List ℚ → Option ℚ
  | [] => none
  | x :: xs => some (xs.foldl min x)

/-- pandas `Series.max()` over the non-null values (None when all-null). -/
def listMax : List ℚ → Option ℚ
  | [] => none
  | x :: xs => some (xs.foldl max x)

/-- pandas `Series.mean()`: sum of non-null values over their count. -/
def listMean (xs : List ℚ) : Option ℚ :=
  if xs.length = 0 then none else some (xs.sum / xs.length)

/-- Insertion into an ascending-sorted list. -/
def insertSorted (x : ℚ) : List ℚ → List ℚ
  | [] => [x]
  | y :: ys => if x ≤ y then x :: y :: ys else y :: insertSorted x ys

/-- Ascending insertion sort. -/
def sortRats (xs : List ℚ) : List ℚ := xs.foldr insertSorted []

/-- pandas `Series.median()`: middle of the sorted non-null values, or
the average of the two middles for an even count. -/
def listMedian (xs : List ℚ) : Option ℚ :=
  let s := sortRats xs
  let n := s.length
  if n = 0 then none
  else if n % 2 = 1 then s.get? (n / 2)
  else
    match s.get? (n / 2 - 1), s.get? (n / 2) with
    | some a, some b => some ((a + b) / 2)
    | _, _ => none

/-- The string cells of a column (nulls and non-strings dropped), as
`value_counts`/`min`/`max` see them. -/
def strCells (vals : List CellValue) : List String :=
  vals.filterMap (fun v => match v with | .str s => some s | _ => none)

/-- Lexicographic minimum of a list of strings. -/
def strListMin : List String → Option String
  | [] => none
  | x :: xs => some (xs.foldl (fun a b => if a < b then a else b) x)

/-- Lexicographic maximum of a list of strings. -/
def strListMax : List String → Option String
  | [] => none
  | x :: xs => some (xs.foldl (fun a b => if a < b then b else a) x)

/-- Distinct elements in first-appearance order. -/
def distinctFirst {α : Type} [DecidableEq α] (xs : List α) : List α :=
  xs.foldl (fun acc x => if x ∈ acc then acc else acc ++ [x]) []

/-- Number of occurrences of `s` in `xs`. -/
def countOcc (s : String) (xs : List String) : Nat :=
  xs.countP (fun t => t = s)

/-- Insertion into a count-descending list. -/
def insertByCount (p : String × Nat) :
    List (String × Nat) → List (String × Nat)
  | [] => [p]
  | q :: qs => if q.2 < p.2 then p :: q :: qs else q :: insertByCount p qs

/-- pandas `Series.value_counts()`: distinct non-null values with their
counts, ordered by descending count. -/
def valueCounts (xs : List String) : List (String × Nat) :=
  ((distinctFirst xs).map (fun s => (s, countOcc s xs))).foldr insertByCount []

/-- Statistics of one column, by inferred kind. The source also has a
`{"note": "Could not calculate statistics"}` fallback for a raising
stats computation; no modelled computation raises, so that constructor
is present but unreachable. -/
inductive ColStats
  | numeric (mn mx mean median : Option ℚ)
  | datetime (mn mx : Option String)
  | text (unique_values : Nat) (most_common : List (String × Nat))
  | note (s : String)
deriving DecidableEq

/-- Per-column statistics of lines 71-93: numeric → min/max/mean/median
with nulls skipped; datetime → min/max as strings; string → distinct
count (`unique()`, which keeps a null) and top-5 value counts; any other
dtype → no entry. -/
def colStats (kind : ColKind) (vals : List CellValue) : Option ColStats :=
  match kind with
  | .numeric =>
    let nums := vals.filterMap cellToRat
    some (.numeric (listMin nums) (listMax nums) (listMean nums) (listMedian nums))
  | .datetime =>
    let ds := strCells vals
    some (.datetime (strListMin ds) (strListMax ds))
  | .text =>
    some (.text (distinctFirst vals).length ((valueCounts (strCells vals)).take 5))
  | .objectOther => none

/-- A pandas DataFrame as the shaper sees it: ordered column names,
their inferred dtypes, ordered rows. -/
structure DataFrame where
  columns : List String
  kinds : List ColKind
  rows : List (List CellValue)

/-- The values of column `j`, top to bottom. -/
def colValues (df : DataFrame) (j : Nat) : List CellValue :=
  df.rows.map (fun r => r.getD j .null)

/-- The `summary_stats` dict built by the loop over `df.columns`. -/
def summaryStats (df : DataFrame) : List (String × ColStats) :=
  df.columns.enum.filterMap (fun p =>
    (colStats (df.kinds.getD p.1 .objectOther) (colValues df p.1)).map
      (fun st => (p.2, st)))

/-- The `sample_data` sections for a summarized result. -/
structure SampleData where
  first_rows : List Record
  middle_sample : List Record
  last_rows : List Record
deriving DecidableEq

/-- The `full_data` field: the no-data marker string or the full record
list. -/
inductive FullData
  | text (s : String)
  | records (rs : List Record)
deriving DecidableEq

/-- The dict returned by `_prepare_result_for_gpt`. -/
structure PreparedResult where
  row_count : Nat
  column_count : Nat
  columns : List String
  is_summarized : Bool
  summary_stats : List (String × ColStats)
  sample_data : Option SampleData
  full_data : Option FullData
deriving DecidableEq

/-- `df.iloc[10:-5]`: the interior rows, excluding the first 10 and the
last 5. -/
def middlePart (rows : List (List CellValue)) : List (List CellValue) :=
  (rows.drop 10).take ((rows.drop 10).length - 5)

/-- The up-to-5-row random interior sample (lines 130-136): empty when
the interior is empty, otherwise `min 5 (interior size)` rows at the
indices the sampler `pick` chooses. -/
def middleSample (pick : Nat → Nat → List Nat) (cols : List String)
    (rows : List (List CellValue)) : List Record :=
  let middle := middlePart rows
  if 0 < middle.length then
    ((pick middle.length (min 5 middle.length)).filterMap
      (fun i => middle.get? i)).map (toRecord cols)
  else []

/-- `ResultHumanizer._prepare_result_for_gpt`: empty-table short-circuit,
per-column statistics, the 100-row (`max_rows_for_full_context`)
threshold between full data and the first-10/random-5/last-5 sample. -/
def prepareResultForGpt (pick : Nat → Nat → List Nat) (df : DataFrame) :
    PreparedResult :=
  if df.rows.length = 0 then
    ⟨df.rows.length, df.columns.length, df.columns, false, [], none,
      some (.text "No data found.")⟩
  else if df.rows.length ≤ 100 then
    ⟨df.rows.length, df.columns.length, df.columns, false, summaryStats df, none,
      some (.records (df.rows.map (toRecord df.columns)))⟩
  else
    ⟨df.rows.length, df.columns.length, df.columns, true, summaryStats df,
      some ⟨(df.rows.take 10).map (toRecord df.columns),
            middleSample pick df.columns df.rows,
            (df.rows.drop (df.rows.length - 5)).map (toRecord df.columns)⟩,
      none⟩

/-- The sampler instance `pick m k = [0, …, k-1]`, used as a concrete
stand-in for `df.sample`. -/
def pickRange : Nat → Nat → List Nat := fun _ k => List.range k

/-- A one-row, one-numeric-column DataFrame. -/
def dfOne : DataFrame := ⟨["a"], [.numeric], [[.int 1]]⟩

/-- A 101-row, zero-column DataFrame. -/
def df101 : DataFrame := ⟨[], [], List.replicate 101 []⟩

/-- An empty DataFrame with one numeric column. -/
def dfEmpty : DataFrame := ⟨["a"], [.numeric], []⟩

/-- The numeric column [1, 2, null, 4] of the spec's statistics example. -/
def dfNumNull : DataFrame :=
  ⟨["x"], [.numeric], [[.int 1], [.int 2], [.null], [.int 4]]⟩

/-- C9: a 0-row table yields `is_summarized = false`, the fixed no-data
marker as the full data payload, and an empty statistics dict. -/
theorem c9_empty_table (pick : Nat → Nat → List Nat) (df : DataFrame)
    (h : df.rows = []) :
    (prepareResultForGpt pick df).is_summarized = false ∧
    (prepareResultForGpt pick df).full_data = some (.text "No data found.") ∧
    (prepareResultForGpt pick df).summary_stats = [] := by
  simp [prepareResultForGpt, h]

/-- Witness for `c9_empty_table` on a concrete empty DataFrame. -/
theorem c9_empty_table_witness :
    (prepareResultForGpt pickRange dfEmpty).is_summarized = false ∧
    (prepareResultForGpt pickRange dfEmpty).full_data
      = some (.text "No data found.") ∧
    (prepareResultForGpt pickRange dfEmpty).summary_stats = [] :=
  c9_empty_table pickRange dfEmpty rfl

/-- C2: `is_summarized` is false exactly when the row count is at most
the fixed threshold 100 (so 100 rows give false and 101 give true), and
for a non-empty table within the threshold the full data payload is
every row verbatim (as records) together with the per-column statistics
dict. -/
theorem c2_full_context_threshold (pick : Nat → Nat → List Nat) (df : DataFrame) :
    ((prepareResultForGpt pick df).is_summarized = false ↔
       df.rows.length ≤ 100) ∧
    (1 ≤ df.rows.length → df.rows.length ≤ 100 →
       (prepareResultForGpt pick df).full_data
         = some (.records (df.rows.map (toRecord df.columns))) ∧
       (prepareResultForGpt pick df).summary_stats = summaryStats df) := by
  by_cases h0 : df.rows.length = 0
  · constructor
    · simp [prepareResultForGpt, h0]
    · intro h1
      omega
  · by_cases h1 : df.rows.length ≤ 100
    · constructor
      · simp [prepareResultForGpt, h0, h1]
      · intro _ _
        constructor
        · simp [prepareResultForGpt, h0, h1]
        · simp [prepareResultForGpt, h0, h1]
    · constructor
      · simp [prepareResultForGpt, h0, h1]
      · intro _ h
        exact absurd h h1

/-- Witness for `c2_full_context_threshold`: the one-row DataFrame keeps
its row verbatim in `full_data` together with its statistics. -/
theorem c2_full_context_threshold_witness :
    (prepareResultForGpt pickRange dfOne).full_data
      = some (.records (dfOne.rows.map (toRecord dfOne.columns))) ∧
    (prepareResultForGpt pickRange dfOne).summary_stats = summaryStats dfOne :=
  (c2_full_context_threshold pickRange dfOne).2 (by decide) (by decide)

/-- C8: on the numeric column [1, 2, null, 4] the shaper's statistics
skip the null: min 1, max 4, mean (1+2+4)/3 (and median 2). -/
theorem c8_numeric_stats_skip_null :
    (prepareResultForGpt pickRange dfNumNull).summary_stats
      = [("x", .numeric (some 1) (some 4) (some ((1 + 2 + 4) / 3))
            (some 2))] := by
  simp [prepareResultForGpt, dfNumNull, summaryStats, List.enum, List.enumFrom,
    colStats, colValues, cellToRat, listMin, listMax, listMean, listMedian,
    sortRats, insertSorted]
  norm_num

/-- A `filterMap` of successful lookups keeps one element per index. -/
theorem length_filterMap_getq {α : Type} (xs : List α) (idx : List Nat)
    (h : ∀ i ∈ idx, i < xs.length) :
    (idx.filterMap (fun i => xs.get? i)).length = idx.length := by
  induction idx with
  | nil => rfl
  | cons i is ih =>
    have hi : i < xs.length := h i (List.mem_cons_self i is)
    obtain ⟨a, ha⟩ : ∃ a, xs.get? i = some a := by
      cases hx : xs.get? i with
      | none =>
        have := List.get?_eq_none.mp hx
        omega
      | some a => exact ⟨a, rfl⟩
    rw [List.filterMap_cons, ha, List.length_cons,
      ih (fun j hj => h j (List.mem_cons_of_mem i hj))]
    rfl

/-- The shaper marks a result summarized exactly when its row count
exceeds the 100-row threshold. -/
theorem prepare_is_summarized_iff (pick : Nat → Nat → List Nat) (df : DataFrame) :
    (prepareResultForGpt pick df).is_summarized = true ↔
      100 < df.rows.length := by
  rcases Nat.lt_or_ge 100 df.rows.length with h | h
  · have h0 : ¬ df.rows.length = 0 := by omega
    have h1 : ¬ df.rows.length ≤ 100 := by omega
    simp [prepareResultForGpt, h0, h1, h]
  · by_cases h0 : df.rows.length = 0
    · simp [prepareResultForGpt, h0]
    · have h1 : df.rows.length ≤ 100 := h
      simp only [prepareResultForGpt, h0, if_neg, if_pos, h1, ite_true, ite_false,
        Bool.false_eq_true, false_iff, not_lt]

/-- C6: for every summarized shape, `first_rows` is exactly the first
min(10, row_count) rows, `last_rows` exactly the last min(5, row_count-10)
rows, the three regions partition the table (so the first and last
sections never overlap), and the random middle sample has at most 5 rows,
all drawn from the interior that excludes the first 10 and last 5 rows. -/
theorem c6_sample_sections (pick : Nat → Nat → List Nat) (df : DataFrame)
    (hpick : ∀ m k, k ≤ m → (pick m k).length = k ∧ ∀ i ∈ pick m k, i < m)
    (hs : (prepareResultForGpt pick df).is_summarized = true) :
    ∃ sd, (prepareResultForGpt pick df).sample_data = some sd ∧
      sd.first_rows = (df.rows.take 10).map (toRecord df.columns) ∧
      sd.first_rows.length = min 10 df.rows.length ∧
      sd.last_rows
        = (df.rows.drop (df.rows.length - 5)).map (toRecord df.columns) ∧
      sd.last_rows.length = min 5 (df.rows.length - 10) ∧
      df.rows = df.rows.take 10 ++ middlePart df.rows
        ++ df.rows.drop (df.rows.length - 5) ∧
      sd.middle_sample.length ≤ 5 ∧
      ∀ r ∈ sd.middle_sample,
        r ∈ (middlePart df.rows).map (toRecord df.columns) := by
  have hrc : 100 < df.rows.length := (prepare_is_summarized_iff pick df).mp hs
  have h0 : ¬ df.rows.length = 0 := by omega
  have h1 : ¬ df.rows.length ≤ 100 := by omega
  refine ⟨⟨(df.rows.take 10).map (toRecord df.columns),
           middleSample pick df.columns df.rows,
           (df.rows.drop (df.rows.length - 5)).map (toRecord df.columns)⟩,
    ?_, rfl, ?_, rfl, ?_, ?_, ?_, ?_⟩
  · simp [prepareResultForGpt, h0, h1]
  · rw [List.length_map, List.length_take]
  · rw [List.length_map, List.length_drop]
    omega
  · have e2 : middlePart df.rows
        ++ (df.rows.drop 10).drop ((df.rows.drop 10).length - 5)
        = df.rows.drop 10 := List.take_append_drop _ _
    have e3 : (df.rows.drop 10).drop ((df.rows.drop 10).length - 5)
        = df.rows.drop (df.rows.length - 5) := by
      rw [List.drop_drop, List.length_drop]
      congr 1
      omega
    calc df.rows = df.rows.take 10 ++ df.rows.drop 10 :=
          (List.take_append_drop 10 df.rows).symm
      _ = df.rows.take 10
            ++ (middlePart df.rows ++ df.rows.drop (df.rows.length - 5)) := by
          rw [← e2, e3]
      _ = df.rows.take 10 ++ middlePart df.rows
            ++ df.rows.drop (df.rows.length - 5) := by
          rw [List.append_assoc]
  · unfold middleSample
    by_cases hm : 0 < (middlePart df.rows).length
    · rw [if_pos hm]
      have hk : min 5 (middlePart df.rows).length
          ≤ (middlePart df.rows).length := min_le_right _ _
      obtain ⟨hlen, hbound⟩ :=
        hpick (middlePart df.rows).length (min 5 (middlePart df.rows).length) hk
      rw [List.length_map, length_filterMap_getq _ _ hbound, hlen]
      exact min_le_left _ _
    · rw [if_neg hm]
      simp
  · intro r hr
    unfold middleSample at hr
    by_cases hm : 0 < (middlePart df.rows).length
    · rw [if_pos hm] at hr
      obtain ⟨x, hx, rfl⟩ := List.mem_map.mp hr
      obtain ⟨i, _, hgi⟩ := List.mem_filterMap.mp hx
      exact List.mem_map_of_mem _ (List.get?_mem hgi)
    · rw [if_neg hm] at hr
      simp at hr

/-- Witness for `c6_sample_sections` on a concrete 101-row table with
the range sampler. -/
theorem c6_sample_sections_witness :
    ∃ sd, (prepareResultForGpt pickRange df101).sample_data = some sd ∧
      sd.first_rows = (df101.rows.take 10).map (toRecord df101.columns) ∧
      sd.first_rows.length = min 10 df101.rows.length ∧
      sd.last_rows
        = (df101.rows.drop (df101.rows.length - 5)).map (toRecord df101.columns) ∧
      sd.last_rows.length = min 5 (df101.rows.length - 10) ∧
      df101.rows = df101.rows.take 10 ++ middlePart df101.rows
        ++ df101.rows.drop (df101.rows.length - 5) ∧
      sd.middle_sample.length ≤ 5 ∧
      ∀ r ∈ sd.middle_sample,
        r ∈ (middlePart df101.rows).map (toRecord df101.columns) :=
  c6_sample_sections pickRange df101
    (fun _ k hk => ⟨List.length_range k,
      fun _ hi => lt_of_lt_of_le (List.mem_range.mp hi) hk⟩)
    (by decide)

/-!
## Schema Catalog (`src/nlp/query_generator.py`, `_load_schema_info`)

The environment captures the session cache, the connectivity outcome
after the optional reconnect, and what the introspection queries return.
The source's `_get_fallback_schema` method is entirely commented out but
still called in the not-connected branch and in the `except` handler, so
both paths raise `AttributeError`; `LoadResult.attributeError` models
that escape.
-/

/-- Column metadata as fetched from `INFORMATION_SCHEMA.COLUMNS`. -/
structure ColumnInfo where
  name : String
  dtype : String
  max_length : Option Int
  nullable : String
  colDefault : Option String
deriving DecidableEq

/-- A foreign-key edge as fetched from `sys.foreign_keys`. -/
structure Relationship where
  fk_name : String
  parent_table : String
  parent_column : String
  referenced_table : String
  referenced_column : String
deriving DecidableEq

/-- The schema dict built by `_load_schema_info`: table name → columns,
plus the relationship list. -/
structure SchemaInfo where
  tables : List (String × List ColumnInfo)
  relationships : List Relationship
deriving DecidableEq

/-- Environment of a `_load_schema_info` call. -/
structure SchemaEnv where
  sessionSchema : Option SchemaInfo
  connected : Bool
  tables : List String
  tableSchema : String → List ColumnInfo
  relationships : List Relationship

/-- Result of `_load_schema_info`: a schema dict, or the AttributeError
raised by calling the commented-out `_get_fallback_schema`. -/
inductive LoadResult
  | ok (s : SchemaInfo)
  | attributeError
deriving DecidableEq

/-- `SQLQueryGenerator._load_schema_info`: session cache hit, else build
the schema from the database (tables with an empty column list are
skipped by `if table_schema:`), else — not connected — call the missing
fallback method. -/
def load_schema_info (env : SchemaEnv) : LoadResult :=
  match env.sessionSchema with
  | some s => .ok s
  | none =>
    if env.connected then
      .ok ⟨env.tables.filterMap (fun t =>
              if (env.tableSchema t).isEmpty then none
              else some (t, env.tableSchema t)),
           env.relationships⟩
    else .attributeError

/-- A reachable database with no tables. -/
def envNoTables : SchemaEnv := ⟨none, true, [], fun _ => [], []⟩

/-- An unreachable database (connection check and reconnect both fail). -/
def envUnreachable : SchemaEnv := ⟨none, false, [], fun _ => [], []⟩

/-- C4 counterexample: when the database returns no tables the load
SUCCEEDS with an empty-tables schema (it does not fail at all), and when
the database is unreachable the load escapes with the AttributeError of
the commented-out fallback method — in neither case does any
`SchemaUnavailable` failure exist. -/
theorem c4_no_schema_unavailable :
    load_schema_info envNoTables = .ok ⟨[], []⟩ ∧
    load_schema_info envUnreachable = .attributeError := by
  constructor
  · rfl
  · rfl

/-- C4 (amended): with no cached session schema, an unreachable database
makes `_load_schema_info` raise `AttributeError` (the fallback-schema
method it calls is commented out), and a reachable database with no
tables yields a successful schema whose tables mapping is empty. -/
theorem c4_load_schema_amended (env : SchemaEnv)
    (hsession : env.sessionSchema = none) :
    (env.connected = false → load_schema_info env = .attributeError) ∧
    (env.connected = true → env.tables = [] →
       load_schema_info env = .ok ⟨[], env.relationships⟩) := by
  constructor
  · intro hc
    simp [load_schema_info, hsession, hc]
  · intro hc ht
    simp [load_schema_info, hsession, hc, ht]

/-- Witness for `c4_load_schema_amended` at the two concrete
environments. -/
theorem c4_load_schema_amended_witness :
    load_schema_info envUnreachable = .attributeError ∧
    load_schema_info envNoTables = .ok ⟨[], envNoTables.relationships⟩ :=
  ⟨(c4_load_schema_amended envUnreachable rfl).1 rfl,
   (c4_load_schema_amended envNoTables rfl).2 rfl rfl⟩

/-!
## Result Summarizer context (`src/nlp/result_humanizer.py`,
`_format_query_context`)

`json.dumps` (for record lists and for the `most_common` dicts) is an
external collaborator, passed in as the oracles `dumpsRecords` /
`dumpsCounts`; numeric reprs use `toString` as a stand-in for Python's.
The exception fallbacks of the source (simplified context, stringified
sample) are unreachable in the model, where no step raises.
-/

/-- The marker appended after truncation (45 characters). -/
def truncationMarker : PyStr :=
  pyOf "\n\n[Content truncated due to size limitations]"

/-- One `  - name: value` statistics line. -/
def statValLine (name : PyStr) (val : PyStr) : PyStr :=
  pyOf "  - " ++ name ++ pyOf ": " ++ val ++ pyOf "\n"

/-- Rendering of an optional numeric statistic (`None` for missing). -/
def optRatRepr : Option ℚ → PyStr
  | none => pyOf "None"
  | some q => pyOf (toString q)

/-- Rendering of an optional string statistic (`None` for missing). -/
def optStrRepr : Option String → PyStr
  | none => pyOf "None"
  | some s => pyOf s

/-- The per-statistic lines of one column; a dict-valued statistic is
serialized and capped at 500 characters (line 218). -/
def statLines (dumpsCounts : List (String × Nat) → PyStr) :
    ColStats → PyStr
  | .numeric mn mx mean median =>
    statValLine (pyOf "min") (optRatRepr mn)
      ++ statValLine (pyOf "max") (optRatRepr mx)
      ++ statValLine (pyOf "mean") (optRatRepr mean)
      ++ statValLine (pyOf "median") (optRatRepr median)
  | .datetime mn mx =>
    statValLine (pyOf "min") (optStrRepr mn)
      ++ statValLine (pyOf "max") (optStrRepr mx)
  | .text uniq common =>
    statValLine (pyOf "unique_values") (pyOf (toString uniq))
      ++ statValLine (pyOf "most_common") ((dumpsCounts common).take 500)
  | .note s => statValLine (pyOf "note") (pyOf s)

/-- The `STATISTICAL SUMMARY:` block (skipped for an empty stats dict). -/
def statsBlock (dumpsCounts : List (String × Nat) → PyStr)
    (stats : List (String × ColStats)) : PyStr :=
  if stats.isEmpty then []
  else
    pyOf "STATISTICAL SUMMARY:\n"
      ++ (stats.map (fun p =>
            pyOf "- " ++ pyOf p.1 ++ pyOf ":\n" ++ statLines dumpsCounts p.2)).flatten
      ++ pyOf "\n"

/-- The data block: sampled halves capped at 1000 characters each
(`max_data_size // 2`), or the full payload capped at 2000. -/
def dataBlock (dumpsRecords : List Record → PyStr) (rd : PreparedResult) :
    PyStr :=
  if rd.is_summarized then
    pyOf "DATA SAMPLE (partial dataset - too large to show completely):\n" ++
    (match rd.sample_data with
     | some sd =>
       pyOf "First rows:\n" ++ (dumpsRecords sd.first_rows).take 1000
         ++ pyOf "\n\n" ++ pyOf "Last rows:\n"
         ++ (dumpsRecords sd.last_rows).take 1000
     | none => pyOf "Sample data not available.")
  else
    match rd.full_data with
    | some (.text s) => if s = "" then [] else pyOf "DATA: " ++ (pyOf s).take 2000
    | some (.records rs) =>
      if rs.isEmpty then []
      else
        pyOf "COMPLETE DATASET (truncated for API limit):\n"
          ++ (dumpsRecords rs).take 2000
    | none => []

/-- The serialized context before the final size check (lines 202-264). -/
def buildContext (dumpsRecords : List Record → PyStr)
    (dumpsCounts : List (String × Nat) → PyStr)
    (nl sql : PyStr) (rd : PreparedResult) : PyStr :=
  pyOf "ORIGINAL QUESTION: " ++ nl ++ pyOf "\n\n"
    ++ pyOf "SQL QUERY EXECUTED:\n" ++ sql ++ pyOf "\n\n"
    ++ pyOf "RESULT SUMMARY:\n"
    ++ pyOf "- Total rows: " ++ pyOf (toString rd.row_count) ++ pyOf "\n"
    ++ pyOf "- Columns: " ++ pyIntercalate (pyOf ", ") (rd.columns.map pyOf)
    ++ pyOf "\n\n"
    ++ statsBlock dumpsCounts rd.summary_stats
    ++ dataBlock dumpsRecords rd

/-- `_format_query_context`: the built context, truncated to 8000
characters with the marker appended when it is longer than 8000. -/
def formatQueryContext (dumpsRecords : List Record → PyStr)
    (dumpsCounts : List (String × Nat) → PyStr)
    (nl sql : PyStr) (rd : PreparedResult) : PyStr :=
  let ctx := buildContext dumpsRecords dumpsCounts nl sql rd
  if 8000 < ctx.length then ctx.take 8000 ++ truncationMarker else ctx

/-- A concrete empty-result payload used in the size-ceiling instances. -/
def rdEmptyCtx : PreparedResult :=
  ⟨0, 1, ["a"], false, [], none, some (.text "No data found.")⟩

/-- C3 counterexample: a 9000-character question makes the forwarded
context exactly 8045 characters long — the truncated 8000 characters
plus the 45-character marker — which EXCEEDS the 8000-character ceiling
the claim asserts. -/
theorem c3_ceiling_exceeded :
    (formatQueryContext (fun _ => []) (fun _ => [])
        (List.replicate 9000 'a') (pyOf "SELECT 1") rdEmptyCtx).length = 8045 ∧
    8000 < (formatQueryContext (fun _ => []) (fun _ => [])
        (List.replicate 9000 'a') (pyOf "SELECT 1") rdEmptyCtx).length := by
  have hb : 8000 < (buildContext (fun _ => []) (fun _ => [])
      (List.replicate 9000 'a') (pyOf "SELECT 1") rdEmptyCtx).length := by
    simp only [buildContext, List.length_append, List.length_replicate]
    omega
  have hlen : (formatQueryContext (fun _ => []) (fun _ => [])
      (List.replicate 9000 'a') (pyOf "SELECT 1") rdEmptyCtx).length = 8045 := by
    unfold formatQueryContext
    rw [if_pos hb, List.length_append, List.length_take]
    have hm : truncationMarker.length = 45 := by decide
    rw [hm]
    omega
  exact ⟨hlen, by omega⟩

/-- C3 (amended): the context forwarded to the summarizer never exceeds
8045 characters — the 8000-character truncation point plus the
45-character truncation marker — and whenever the built context exceeds
8000 characters the forwarded text is exactly its first 8000 characters
followed by the marker. -/
theorem c3_context_ceiling (dumpsRecords : List Record → PyStr)
    (dumpsCounts : List (String × Nat) → PyStr)
    (nl sql : PyStr) (rd : PreparedResult) :
    (formatQueryContext dumpsRecords dumpsCounts nl sql rd).length ≤ 8045 ∧
    (8000 < (buildContext dumpsRecords dumpsCounts nl sql rd).length →
       formatQueryContext dumpsRecords dumpsCounts nl sql rd
         = (buildContext dumpsRecords dumpsCounts nl sql rd).take 8000
             ++ truncationMarker) := by
  constructor
  · unfold formatQueryContext
    by_cases h : 8000 < (buildContext dumpsRecords dumpsCounts nl sql rd).length
    · rw [if_pos h, List.length_append, List.length_take]
      have hm : truncationMarker.length = 45 := by decide
      have := Nat.min_le_left 8000
        (buildContext dumpsRecords dumpsCounts nl sql rd).length
      omega
    · rw [if_neg h]
      omega
  · intro h
    unfold formatQueryContext
    rw [if_pos h]

/-- Witness for `c3_context_ceiling` at the oversized concrete input. -/
theorem c3_context_ceiling_witness :
    (formatQueryContext (fun _ => []) (fun _ => [])
        (List.replicate 9000 'a') (pyOf "SELECT 1") rdEmptyCtx).length ≤ 8045 ∧
    formatQueryContext (fun _ => []) (fun _ => [])
        (List.replicate 9000 'a') (pyOf "SELECT 1") rdEmptyCtx
      = (buildContext (fun _ => []) (fun _ => [])
          (List.replicate 9000 'a') (pyOf "SELECT 1") rdEmptyCtx).take 8000
        ++ truncationMarker :=
  ⟨(c3_context_ceiling (fun _ => []) (fun _ => [])
      (List.replicate 9000 'a') (pyOf "SELECT 1") rdEmptyCtx).1,
   (c3_context_ceiling (fun _ => []) (fun _ => [])
      (List.replicate 9000 'a') (pyOf "SELECT 1") rdEmptyCtx).2
     (by simp only [buildContext, List.length_append, List.length_replicate]
         omega)⟩

/-- C10: with a non-empty parameter tuple the executed SQL is the text
with EVERY `?` replaced by `%s` — the replacement is purely character
based, so a `?` standing at any position, in particular inside a SQL
string literal, is rewritten (third conjunct), and no `?` survives
(fourth conjunct) — while with no parameters the SQL is executed
verbatim. -/
theorem c10_placeholder_rewrite (q a b : PyStr) (ps : List PyStr) :
    (ps = [] → executedSql q ps = q) ∧
    (ps ≠ [] → executedSql q ps = pyReplaceQ q) ∧
    (ps ≠ [] → q = a ++ '?' :: b →
       executedSql q ps = pyReplaceQ a ++ '%' :: 's' :: pyReplaceQ b) ∧
    (ps ≠ [] → '?' ∉ executedSql q ps) := by
  have hsplit : ∀ (u v : PyStr),
      pyReplaceQ (u ++ '?' :: v) = pyReplaceQ u ++ '%' :: 's' :: pyReplaceQ v := by
    intro u v
    induction u with
    | nil => simp [pyReplaceQ]
    | cons c cs ih => simp [pyReplaceQ, ih]
  have hno : ∀ (u : PyStr), '?' ∉ pyReplaceQ u := by
    intro u
    induction u with
    | nil => simp [pyReplaceQ]
    | cons c cs ih =>
      simp only [pyReplaceQ, List.mem_append]
      rintro (h1 | h2)
      · by_cases hc : c = '?'
        · rw [if_pos hc] at h1
          exact absurd h1 (by decide)
        · rw [if_neg hc] at h1
          rw [List.mem_singleton] at h1
          exact hc h1.symm
      · exact ih h2
  refine ⟨?_, ?_, ?_, ?_⟩
  · intro h; simp [executedSql, h]
  · intro h; simp [executedSql, List.isEmpty_iff, h]
  · intro h hq
    rw [hq]
    simp [executedSql, List.isEmpty_iff, h, hsplit]
  · intro h
    simp [executedSql, List.isEmpty_iff, h]
    exact hno q

/-- Witness for `c10_placeholder_rewrite`: a SQL text whose first `?`
sits inside a string literal (`'x?'`, written with `Char.ofNat 39`
quotes) and whose second `?` is a placeholder: with one parameter both
are replaced, and with no parameters the text is untouched. -/
theorem c10_placeholder_rewrite_witness :
    (executedSql
        (pyOf "SELECT c FROM t WHERE s = " ++
          [Char.ofNat 39, 'x', '?', Char.ofNat 39] ++ pyOf " AND id = ?")
        [pyOf "1"]
      = pyReplaceQ (pyOf "SELECT c FROM t WHERE s = " ++ [Char.ofNat 39, 'x']) ++
        '%' :: 's' ::
          pyReplaceQ ([Char.ofNat 39] ++ pyOf " AND id = ?")) ∧
    (executedSql
        (pyOf "SELECT c FROM t WHERE s = " ++
          [Char.ofNat 39, 'x', '?', Char.ofNat 39] ++ pyOf " AND id = ?")
        []
      = pyOf "SELECT c FROM t WHERE s = " ++
          [Char.ofNat 39, 'x', '?', Char.ofNat 39] ++ pyOf " AND id = ?") :=
  ⟨(c10_placeholder_rewrite
      (pyOf "SELECT c FROM t WHERE s = " ++
        [Char.ofNat 39, 'x', '?', Char.ofNat 39] ++ pyOf " AND id = ?")
      (pyOf "SELECT c FROM t WHERE s = " ++ [Char.ofNat 39, 'x'])
      ([Char.ofNat 39] ++ pyOf " AND id = ?")
      [pyOf "1"]).2.2.1 (by decide) (by decide),
   (c10_placeholder_rewrite
      (pyOf "SELECT c FROM t WHERE s = " ++
        [Char.ofNat 39, 'x', '?', Char.ofNat 39] ++ pyOf " AND id = ?")
      (pyOf "SELECT c FROM t WHERE s = " ++ [Char.ofNat 39, 'x'])
      ([Char.ofNat 39] ++ pyOf " AND id = ?")
      []).1 rfl⟩
